import Mathlib

/-!
Verification of the signal-evaluation and position-state engine of the
crypto trading bot (backend/trading_engine.py, backend/technical_indicators.py,
backend/file_manager.py, backend/config.py).

Prices, indicator values and thresholds are embedded as exact rationals (ℚ);
signal labels, position kinds and order sides are the same strings the Python
code uses.  Functions that read files (the order ledger `order.csv`, the rolling
market history) receive those data as explicit list arguments instead; the
numeric RSI/MACD math of the external `ta` library is passed in as an oracle
parameter, per its documented black-box contract.
-/

/-- A row of the order ledger (order.csv), as written by
`append_order_to_csv` and read back by `get_current_position_from_orders`. -/
structure OrderData where
  datetime : String
  side : String
  price : ℚ
  quantity : ℚ
  trade_size : ℚ
deriving Repr, DecidableEq

/-- One record of the rolling market history, with the fields consumed by
`check_macd_crossover` (`macd`, `signal_line`) and by
`calculate_technical_indicators` (`price`).  Absent/NaN CSV values are `none`. -/
structure Candle where
  price : Option ℚ
  macd : Option ℚ
  signal_line : Option ℚ
deriving Repr, DecidableEq

/-- The current market snapshot handed to the trading engine: price plus the
latest (optional) indicator values. -/
structure MarketData where
  datetime : String
  price : ℚ
  rsi : Option ℚ
  macd : Option ℚ
  signal_line : Option ℚ
deriving Repr, DecidableEq

/-- The threshold configuration dictionary (config.py / threshold.csv). -/
structure Thresholds where
  trade_size : ℚ
  stop_loss : ℚ
  stop_profit : ℚ
  rsi_buy_threshold : ℚ
  rsi_sell_threshold : ℚ
  macd_buy_threshold : ℚ
  macd_sell_threshold : ℚ
  position_size_usdt : ℚ
  active : Bool
  loop_interval : ℕ
  indicator_window : ℕ
deriving Repr, DecidableEq

/-- config.DEFAULT_THRESHOLDS. -/
def DEFAULT_THRESHOLDS : Thresholds :=
  { trade_size := 1 / 100
    stop_loss := 2 / 100
    stop_profit := 25 / 1000
    rsi_buy_threshold := 30
    rsi_sell_threshold := 70
    macd_buy_threshold := 0
    macd_sell_threshold := 0
    position_size_usdt := 100
    active := true
    loop_interval := 60
    indicator_window := 26 }

/-- The four derived indicator periods (config.get_indicator_periods). -/
structure IndicatorPeriods where
  rsi_window : ℕ
  macd_fast : ℕ
  macd_slow : ℕ
  signal_window : ℕ
deriving Repr, DecidableEq

/-- config.get_indicator_periods: all periods derived from the main indicator
window.  Python `int(w * 0.54)` on a nonnegative argument truncates, i.e. it is
the floor, which in exact arithmetic is the natural division `w * 54 / 100`. -/
def get_indicator_periods (indicator_window : ℕ) : IndicatorPeriods :=
  { rsi_window := max 10 (indicator_window * 54 / 100)
    macd_fast := max 8 (indicator_window * 46 / 100)
    macd_slow := indicator_window
    signal_window := max 6 (indicator_window * 35 / 100) }

/-- file_manager.get_current_position_from_orders, with the ledger passed
explicitly instead of read from order.csv.  The missing-file, empty-file and
I/O-error branches of the Python code all return `(None, None)`; they
correspond to the empty list here. -/
def get_current_position_from_orders (orders : List OrderData) :
    Option String × Option ℚ :=
  match orders.getLast? with
  | none => (none, none)
  | some last_order =>
    let buy_count := orders.countP (fun o => o.side == "BUY")
    let sell_count := orders.countP (fun o => o.side == "SELL")
    if buy_count > sell_count then (some "LONG", some last_order.price)
    else if sell_count > buy_count then (some "SHORT", some last_order.price)
    else (none, none)

/-- technical_indicators.check_macd_crossover.  Returns
(bullish_cross, bearish_cross, crossover_strength). -/
def check_macd_crossover (historical_data : List Candle)
    (current_macd current_signal : Option ℚ) : Bool × Bool × Option String :=
  if historical_data.length < 2 then (false, false, none)
  else
    match current_macd, current_signal with
    | some current_macd, some current_signal =>
      -- historical_data[-2]: the second-to-last record
      match historical_data[historical_data.length - 2]? with
      | none => (false, false, none)
      | some prev_data =>
        match prev_data.macd, prev_data.signal_line with
        | some prev_macd, some prev_signal =>
          let macd_momentum := current_macd - prev_macd
          let bullish_cross :=
            decide (prev_macd ≤ prev_signal) && decide (current_macd > current_signal)
          let bearish_cross :=
            decide (prev_macd ≥ prev_signal) && decide (current_macd < current_signal)
          let crossover_strength : Option String :=
            if bullish_cross then some (if macd_momentum > 0 then "strong" else "weak")
            else if bearish_cross then some (if macd_momentum < 0 then "strong" else "weak")
            else none
          (bullish_cross, bearish_cross, crossover_strength)
        | _, _ => (false, false, none)
    | _, _ => (false, false, none)

/-- technical_indicators.get_macd_trend_strength. -/
def get_macd_trend_strength (current_macd current_signal : Option ℚ) : String :=
  match current_macd, current_signal with
  | some current_macd, some current_signal =>
    let separation := |current_macd - current_signal|
    if current_macd > current_signal then
      if separation > 1 / 1000 then "strong_bullish" else "weak_bullish"
    else
      if separation > 1 / 1000 then "strong_bearish" else "weak_bearish"
  | _, _ => "unknown"

/-- technical_indicators.analyze_rsi_condition. -/
def analyze_rsi_condition (rsi_value : Option ℚ)
    (buy_threshold sell_threshold : ℚ) : String :=
  match rsi_value with
  | none => "unknown"
  | some rsi =>
    if rsi ≤ buy_threshold then
      if rsi ≤ buy_threshold - 5 then "extremely_oversold" else "oversold"
    else if rsi ≥ sell_threshold then
      if rsi ≥ sell_threshold + 5 then "extremely_overbought" else "overbought"
    else if 40 ≤ rsi ∧ rsi ≤ 60 then "neutral"
    else if rsi < 40 then "approaching_oversold"
    else "approaching_overbought"

/-- trading_engine.check_stop_loss_take_profit. -/
def check_stop_loss_take_profit (current_position : String)
    (current_price last_trade_price : ℚ) (thresholds : Thresholds) :
    String × Bool :=
  if current_position == "LONG" then
    if current_price ≤ last_trade_price * (1 - thresholds.stop_loss) then
      ("SELL_STOP_LOSS", true)
    else if current_price ≥ last_trade_price * (1 + thresholds.stop_profit) then
      ("SELL_TAKE_PROFIT", true)
    else ("HOLD", false)
  else if current_position == "SHORT" then
    if current_price ≥ last_trade_price * (1 + thresholds.stop_loss) then
      ("BUY_STOP_LOSS", true)
    else if current_price ≤ last_trade_price * (1 - thresholds.stop_profit) then
      ("BUY_TAKE_PROFIT", true)
    else ("HOLD", false)
  else ("HOLD", false)

/-- trading_engine.check_buy_conditions.  The human-readable reason string the
Python function returns alongside the flag is only printed, never branched on,
and is not modelled. -/
def check_buy_conditions (rsi macd signal_line : ℚ) (bullish_cross : Bool)
    (crossover_strength : Option String) (macd_trend rsi_condition : String)
    (thresholds : Thresholds) : Bool :=
  if bullish_cross &&
      (crossover_strength == some "strong" &&
       (rsi_condition == "oversold" || rsi_condition == "extremely_oversold") &&
       decide (macd > thresholds.macd_buy_threshold)) then true
  else if bullish_cross &&
      (rsi_condition == "extremely_oversold" &&
       decide (macd > thresholds.macd_buy_threshold)) then true
  else if macd_trend == "strong_bullish" &&
      (rsi_condition == "oversold" || rsi_condition == "extremely_oversold") &&
      decide (macd > thresholds.macd_buy_threshold) then true
  else false

/-- trading_engine.check_sell_conditions (mirror of the buy conditions). -/
def check_sell_conditions (rsi macd signal_line : ℚ) (bearish_cross : Bool)
    (crossover_strength : Option String) (macd_trend rsi_condition : String)
    (thresholds : Thresholds) : Bool :=
  if bearish_cross &&
      (crossover_strength == some "strong" &&
       (rsi_condition == "overbought" || rsi_condition == "extremely_overbought") &&
       decide (macd < thresholds.macd_sell_threshold)) then true
  else if bearish_cross &&
      (rsi_condition == "extremely_overbought" &&
       decide (macd < thresholds.macd_sell_threshold)) then true
  else if macd_trend == "strong_bearish" &&
      (rsi_condition == "overbought" || rsi_condition == "extremely_overbought") &&
      decide (macd < thresholds.macd_sell_threshold) then true
  else false

/-- trading_engine.check_new_position_signals, with the rolling history passed
explicitly instead of read through get_historical_data(). -/
def check_new_position_signals (market_data : MarketData)
    (thresholds : Thresholds) (historical_data : List Candle) : String × Bool :=
  match market_data.rsi, market_data.macd, market_data.signal_line with
  | some rsi, some macd, some signal_line =>
    let cross := check_macd_crossover historical_data (some macd) (some signal_line)
    let bullish_cross := cross.1
    let bearish_cross := cross.2.1
    let crossover_strength := cross.2.2
    let macd_trend := get_macd_trend_strength (some macd) (some signal_line)
    let rsi_condition :=
      analyze_rsi_condition (some rsi) thresholds.rsi_buy_threshold
        thresholds.rsi_sell_threshold
    if check_buy_conditions rsi macd signal_line bullish_cross
        crossover_strength macd_trend rsi_condition thresholds then
      ("BUY_SIGNAL", true)
    else if check_sell_conditions rsi macd signal_line bearish_cross
        crossover_strength macd_trend rsi_condition thresholds then
      ("SELL_SIGNAL", true)
    else ("HOLD", false)
  | _, _, _ => ("NO_SIGNAL", false)

/-- trading_engine.check_trading_signals_with_thresholds, with the order ledger
and the rolling history passed explicitly instead of read from disk.  The
Python guard `if current_position and last_trade_price` tests truthiness of an
optional float, so besides `None` a reference price of exactly 0.0 also skips
the exit step; that is the `last_trade_price ≠ 0` test below.  When the exit
step does not fire, the source returns HOLD whenever a position exists and
only evaluates entry rules when the position is `None`. -/
def check_trading_signals_with_thresholds (market_data : Option MarketData)
    (thresholds : Thresholds) (orders : List OrderData)
    (historical_data : List Candle) : String × Bool :=
  match market_data with
  | none => ("NO_SIGNAL", false)
  | some md =>
    if !thresholds.active then ("NO_SIGNAL", false)
    else
      match get_current_position_from_orders orders with
      | (some current_position, some last_trade_price) =>
        if last_trade_price ≠ 0 then
          if (check_stop_loss_take_profit current_position md.price
                last_trade_price thresholds).2 then
            check_stop_loss_take_profit current_position md.price
              last_trade_price thresholds
          else ("HOLD", false)
        else ("HOLD", false)
      | (some _, none) => ("HOLD", false)
      | (none, _) => check_new_position_signals md thresholds historical_data

/-- Python str.endswith, on the character sequence of the strings. -/
def str_ends_with (s pat : String) : Bool := pat.data.isSuffixOf s.data

/-- Python str.startswith, on the character sequence of the strings. -/
def str_starts_with (s pat : String) : Bool := pat.data.isPrefixOf s.data

/-- trading_engine.execute_trade, returning the updated ledger instead of
appending a row to order.csv through append_order_to_csv (which writes exactly
the five fields below, in order, after the existing rows). -/
def execute_trade (signal : String) (market_data : MarketData)
    (thresholds : Thresholds) (orders : List OrderData) : List OrderData :=
  if !(str_ends_with signal "_SIGNAL" || str_ends_with signal "_LOSS" ||
       str_ends_with signal "_PROFIT") then
    orders
  else
    let side := if str_starts_with signal "BUY" then "BUY" else "SELL"
    orders ++
      [{ datetime := market_data.datetime
         side := side
         price := market_data.price
         quantity := thresholds.trade_size
         trade_size := thresholds.trade_size }]

/-- technical_indicators.calculate_technical_indicators.  The numeric RSI and
MACD computations belong to the external `ta` library (a documented black box)
and are passed in as the oracles `ta_rsi` and `ta_macd`; an oracle returns
`none` where the library yields too-short output, NaN or an infinity (the
`is_valid_number` filter).  Everything else — the derived periods, the
insufficient-history guards and the price extraction — is from the source. -/
def calculate_technical_indicators (ta_rsi : List ℚ → ℕ → Option ℚ)
    (ta_macd : List ℚ → ℕ → ℕ → ℕ → Option ℚ × Option ℚ)
    (historical_data : List Candle) (indicator_window : ℕ) :
    Option ℚ × Option ℚ × Option ℚ :=
  let periods := get_indicator_periods indicator_window
  let min_required :=
    max periods.rsi_window (max periods.macd_slow periods.signal_window)
  if historical_data.length < min_required then (none, none, none)
  else
    let prices := historical_data.filterMap (fun candle => candle.price)
    if prices.length < min_required then (none, none, none)
    else
      let latest_rsi :=
        if periods.rsi_window ≤ prices.length then
          ta_rsi prices periods.rsi_window
        else none
      let macd_pair :=
        if periods.macd_slow ≤ prices.length then
          ta_macd prices periods.macd_slow periods.macd_fast periods.signal_window
        else (none, none)
      (latest_rsi, macd_pair.1, macd_pair.2)

/-! ## Claim theorems -/

/-- C2: for every position kind, current price `p`, reference price `r` and
thresholds, the exit check follows the spec's rule table — LONG:
`p ≤ r × (1 − stopLoss)` gives (SELL_STOP_LOSS, true), else
`p ≥ r × (1 + stopProfit)` gives (SELL_TAKE_PROFIT, true); SHORT:
`p ≥ r × (1 + stopLoss)` gives (BUY_STOP_LOSS, true), else
`p ≤ r × (1 − stopProfit)` gives (BUY_TAKE_PROFIT, true); first match wins and
(HOLD, false) if none match.  At the boundary, with a LONG position, r = 100
and stopLoss = 0.02, price 98.00 triggers SELL_STOP_LOSS and 98.01 does not. -/
theorem stop_loss_take_profit_spec (p r : ℚ) (thresholds : Thresholds) :
    (check_stop_loss_take_profit "LONG" p r thresholds =
      if p ≤ r * (1 - thresholds.stop_loss) then ("SELL_STOP_LOSS", true)
      else if p ≥ r * (1 + thresholds.stop_profit) then ("SELL_TAKE_PROFIT", true)
      else ("HOLD", false)) ∧
    (check_stop_loss_take_profit "SHORT" p r thresholds =
      if p ≥ r * (1 + thresholds.stop_loss) then ("BUY_STOP_LOSS", true)
      else if p ≤ r * (1 - thresholds.stop_profit) then ("BUY_TAKE_PROFIT", true)
      else ("HOLD", false)) ∧
    check_stop_loss_take_profit "LONG" 98 100 DEFAULT_THRESHOLDS =
      ("SELL_STOP_LOSS", true) ∧
    check_stop_loss_take_profit "LONG" (9801 / 100) 100 DEFAULT_THRESHOLDS =
      ("HOLD", false) := by
  refine ⟨?_, ?_, ?_, ?_⟩
  · simp [check_stop_loss_take_profit]
  · simp [check_stop_loss_take_profit]
  · norm_num [check_stop_loss_take_profit, DEFAULT_THRESHOLDS]
  · norm_num [check_stop_loss_take_profit, DEFAULT_THRESHOLDS]

/-- C3: the position tracker returns (NONE, absent) on the empty ledger and on
equal BUY/SELL counts; strictly more BUYs give LONG, strictly more SELLs give
SHORT, and in either case the reference price is the price of the
chronologically last ledger entry. -/
theorem position_from_orders_spec (orders : List OrderData) :
    (orders = [] → get_current_position_from_orders orders = (none, none)) ∧
    (orders.countP (fun o => o.side == "BUY") =
        orders.countP (fun o => o.side == "SELL") →
      get_current_position_from_orders orders = (none, none)) ∧
    (∀ last_order, orders.getLast? = some last_order →
      (orders.countP (fun o => o.side == "SELL") <
          orders.countP (fun o => o.side == "BUY") →
        get_current_position_from_orders orders =
          (some "LONG", some last_order.price)) ∧
      (orders.countP (fun o => o.side == "BUY") <
          orders.countP (fun o => o.side == "SELL") →
        get_current_position_from_orders orders =
          (some "SHORT", some last_order.price))) := by
  refine ⟨?_, ?_, ?_⟩
  · rintro rfl; rfl
  · intro h
    unfold get_current_position_from_orders
    cases horders : orders.getLast? with
    | none => rfl
    | some last_order => simp [h]
  · intro last_order hlast
    unfold get_current_position_from_orders
    rw [hlast]
    refine ⟨fun hc => ?_, fun hc => ?_⟩
    · simp [hc]
    · simp [hc, Nat.lt_asymm hc]

/-- Witness for C3: a 2-BUY/1-SELL ledger is LONG with the last entry's price
as reference, and a 1-BUY/1-SELL ledger is net-flat. -/
theorem position_from_orders_spec_witness :
    get_current_position_from_orders
        [⟨"t1", "BUY", 100, 1, 1⟩, ⟨"t2", "SELL", 105, 1, 1⟩,
         ⟨"t3", "BUY", 103, 1, 1⟩] = (some "LONG", some 103) ∧
    get_current_position_from_orders
        [⟨"t1", "BUY", 100, 1, 1⟩, ⟨"t2", "SELL", 105, 1, 1⟩] = (none, none) := by
  constructor
  · exact ((position_from_orders_spec
        [⟨"t1", "BUY", 100, 1, 1⟩, ⟨"t2", "SELL", 105, 1, 1⟩,
         ⟨"t3", "BUY", 103, 1, 1⟩]).2.2 ⟨"t3", "BUY", 103, 1, 1⟩ rfl).1 (by decide)
  · exact (position_from_orders_spec
        [⟨"t1", "BUY", 100, 1, 1⟩, ⟨"t2", "SELL", 105, 1, 1⟩]).2.1 (by decide)

/-- C6: for RSI in [0,100] and buyThreshold < sellThreshold, the RSI classifier
follows the spec's ordered chain: extremely_oversold at ≤ buy−5, oversold at
≤ buy, extremely_overbought at ≥ sell+5, overbought at ≥ sell, neutral on
[40,60], approaching_oversold below 40, approaching_overbought otherwise. -/
theorem rsi_condition_spec (rsi buy_threshold sell_threshold : ℚ)
    (hbs : buy_threshold < sell_threshold) (h0 : 0 ≤ rsi) (h100 : rsi ≤ 100) :
    analyze_rsi_condition (some rsi) buy_threshold sell_threshold =
      if rsi ≤ buy_threshold - 5 then "extremely_oversold"
      else if rsi ≤ buy_threshold then "oversold"
      else if rsi ≥ sell_threshold + 5 then "extremely_overbought"
      else if rsi ≥ sell_threshold then "overbought"
      else if 40 ≤ rsi ∧ rsi ≤ 60 then "neutral"
      else if rsi < 40 then "approaching_oversold"
      else "approaching_overbought" := by
  simp only [analyze_rsi_condition]
  split_ifs <;> first | rfl | linarith

/-- Witness for C6: rsi = 28 with the default thresholds 30/70 is oversold
(not extremely: 28 > 30 − 5). -/
theorem rsi_condition_spec_witness :
    analyze_rsi_condition (some 28) 30 70 = "oversold" := by
  have h := rsi_condition_spec 28 30 70 (by norm_num) (by norm_num) (by norm_num)
  rw [h]
  norm_num

/-- In the main case (enough history, previous MACD and signal present), the
crossover check is the literal comparison tuple. -/
lemma check_macd_crossover_eq (historical_data : List Candle) (prev_data : Candle)
    (prev_macd prev_signal current_macd current_signal : ℚ)
    (hlen : ¬ historical_data.length < 2)
    (hget : historical_data[historical_data.length - 2]? = some prev_data)
    (hm : prev_data.macd = some prev_macd)
    (hs : prev_data.signal_line = some prev_signal) :
    check_macd_crossover historical_data (some current_macd) (some current_signal) =
      (decide (prev_macd ≤ prev_signal) && decide (current_macd > current_signal),
       decide (prev_macd ≥ prev_signal) && decide (current_macd < current_signal),
       if decide (prev_macd ≤ prev_signal) && decide (current_macd > current_signal) then
         some (if current_macd - prev_macd > 0 then "strong" else "weak")
       else if decide (prev_macd ≥ prev_signal) && decide (current_macd < current_signal) then
         some (if current_macd - prev_macd < 0 then "strong" else "weak")
       else none) := by
  simp only [check_macd_crossover, hlen, if_false, hget, hm, hs]

/-- C5: the crossover classifier reports bullish exactly when previous MACD ≤
previous signal and current MACD > current signal, bearish exactly when
previous MACD ≥ previous signal and current MACD < current signal; on a
crossover the strength is "strong" when the momentum (current − previous MACD)
has the sign of the crossover direction and "weak" otherwise; the result is
(no crossover, no strength) when the history has fewer than 2 points or the
previous MACD or signal value is absent. -/
theorem macd_crossover_spec (historical_data : List Candle)
    (current_macd current_signal : ℚ) :
    (∀ prev_data prev_macd prev_signal,
      2 ≤ historical_data.length →
      historical_data[historical_data.length - 2]? = some prev_data →
      prev_data.macd = some prev_macd →
      prev_data.signal_line = some prev_signal →
      (((check_macd_crossover historical_data (some current_macd)
            (some current_signal)).1 = true ↔
          (prev_macd ≤ prev_signal ∧ current_macd > current_signal)) ∧
       ((check_macd_crossover historical_data (some current_macd)
            (some current_signal)).2.1 = true ↔
          (prev_macd ≥ prev_signal ∧ current_macd < current_signal)) ∧
       ((check_macd_crossover historical_data (some current_macd)
            (some current_signal)).1 = true →
          (check_macd_crossover historical_data (some current_macd)
            (some current_signal)).2.2 =
            some (if current_macd - prev_macd > 0 then "strong" else "weak")) ∧
       ((check_macd_crossover historical_data (some current_macd)
            (some current_signal)).2.1 = true →
          (check_macd_crossover historical_data (some current_macd)
            (some current_signal)).2.2 =
            some (if current_macd - prev_macd < 0 then "strong" else "weak")) ∧
       ((check_macd_crossover historical_data (some current_macd)
            (some current_signal)).1 = false →
        (check_macd_crossover historical_data (some current_macd)
            (some current_signal)).2.1 = false →
          (check_macd_crossover historical_data (some current_macd)
            (some current_signal)).2.2 = none))) ∧
    (historical_data.length < 2 →
      check_macd_crossover historical_data (some current_macd)
        (some current_signal) = (false, false, none)) ∧
    (∀ prev_data, 2 ≤ historical_data.length →
      historical_data[historical_data.length - 2]? = some prev_data →
      (prev_data.macd = none ∨ prev_data.signal_line = none) →
      check_macd_crossover historical_data (some current_macd)
        (some current_signal) = (false, false, none)) := by
  refine ⟨?_, ?_, ?_⟩
  · intro prev_data prev_macd prev_signal hlen hget hm hs
    rw [check_macd_crossover_eq historical_data prev_data prev_macd prev_signal
      current_macd current_signal (not_lt.mpr hlen) hget hm hs]
    refine ⟨by simp, by simp, ?_, ?_, ?_⟩
    · intro h
      simp only at h
      simp [h]
    · intro h
      have h2 := h
      simp only [Bool.and_eq_true, decide_eq_true_eq] at h2
      have hb : decide (current_macd > current_signal) = false :=
        decide_eq_false (not_lt.mpr h2.2.le)
      simp [h, hb]
      exact ⟨h2.1, h2.2⟩
    · intro h1 h2
      simp only at h1 h2
      simp [h1, h2]
  · intro hlen
    simp [check_macd_crossover, hlen]
  · intro prev_data hlen hget habs
    rcases habs with hm | hs
    · simp [check_macd_crossover, not_lt.mpr hlen, hget, hm]
    · rcases hm : prev_data.macd with _ | prev_macd <;>
        simp [check_macd_crossover, not_lt.mpr hlen, hget, hm, hs]

/-- Witness for C5: previous (−0.001, 0.0015), current (0.002, 0.001) is a
bullish crossover. -/
theorem macd_crossover_spec_witness :
    (check_macd_crossover
        [⟨none, some (-1 / 1000), some (3 / 2000)⟩, ⟨none, none, none⟩]
        (some (1 / 500)) (some (1 / 1000))).1 = true := by
  have h := (macd_crossover_spec
      [⟨none, some (-1 / 1000), some (3 / 2000)⟩, ⟨none, none, none⟩]
      (1 / 500) (1 / 1000)).1
    ⟨none, some (-1 / 1000), some (3 / 2000)⟩ (-1 / 1000) (3 / 2000)
    (by decide) rfl rfl rfl
  exact h.1.mpr (by norm_num)

/-- C10: the crossover classifier never reports a bullish and a bearish
crossover at the same time. -/
theorem crossover_not_both (historical_data : List Candle)
    (current_macd current_signal : Option ℚ) :
    ((check_macd_crossover historical_data current_macd current_signal).1 &&
     (check_macd_crossover historical_data current_macd current_signal).2.1) =
      false := by
  rcases current_macd with _ | cm
  · unfold check_macd_crossover
    split <;> simp
  rcases current_signal with _ | cs
  · unfold check_macd_crossover
    split <;> simp
  by_cases hlen : historical_data.length < 2
  · simp [check_macd_crossover, hlen]
  rcases hget : historical_data[historical_data.length - 2]? with _ | prev_data
  · simp [check_macd_crossover, hlen, hget]
  rcases hm : prev_data.macd with _ | prev_macd
  · simp [check_macd_crossover, hlen, hget, hm]
  rcases hs : prev_data.signal_line with _ | prev_signal
  · simp [check_macd_crossover, hlen, hget, hm, hs]
  rw [check_macd_crossover_eq historical_data prev_data prev_macd prev_signal
    cm cs hlen hget hm hs]
  by_cases h : cs < cm
  · have hd : decide (cm < cs) = false := decide_eq_false (not_lt.mpr h.le)
    simp [hd]
  · have hd : decide (cm > cs) = false := decide_eq_false h
    simp [hd]

/-- The buy-condition flag holds exactly on the spec's three-rule disjunction. -/
lemma check_buy_conditions_iff (rsi macd signal_line : ℚ) (bullish_cross : Bool)
    (crossover_strength : Option String) (macd_trend rsi_condition : String)
    (thresholds : Thresholds) :
    check_buy_conditions rsi macd signal_line bullish_cross crossover_strength
        macd_trend rsi_condition thresholds = true ↔
      ((bullish_cross = true ∧ crossover_strength = some "strong" ∧
        (rsi_condition = "oversold" ∨ rsi_condition = "extremely_oversold") ∧
        macd > thresholds.macd_buy_threshold) ∨
       (bullish_cross = true ∧ rsi_condition = "extremely_oversold" ∧
        macd > thresholds.macd_buy_threshold) ∨
       (macd_trend = "strong_bullish" ∧
        (rsi_condition = "oversold" ∨ rsi_condition = "extremely_oversold") ∧
        macd > thresholds.macd_buy_threshold)) := by
  unfold check_buy_conditions
  split_ifs with h1 h2 h3 <;> simp_all

/-- The sell-condition flag holds exactly on the mirrored three-rule
disjunction. -/
lemma check_sell_conditions_iff (rsi macd signal_line : ℚ) (bearish_cross : Bool)
    (crossover_strength : Option String) (macd_trend rsi_condition : String)
    (thresholds : Thresholds) :
    check_sell_conditions rsi macd signal_line bearish_cross crossover_strength
        macd_trend rsi_condition thresholds = true ↔
      ((bearish_cross = true ∧ crossover_strength = some "strong" ∧
        (rsi_condition = "overbought" ∨ rsi_condition = "extremely_overbought") ∧
        macd < thresholds.macd_sell_threshold) ∨
       (bearish_cross = true ∧ rsi_condition = "extremely_overbought" ∧
        macd < thresholds.macd_sell_threshold) ∨
       (macd_trend = "strong_bearish" ∧
        (rsi_condition = "overbought" ∨ rsi_condition = "extremely_overbought") ∧
        macd < thresholds.macd_sell_threshold)) := by
  unfold check_sell_conditions
  split_ifs with h1 h2 h3 <;> simp_all

/-- C4: with a NONE position and all three indicators present, the entry
evaluation returns (BUY_SIGNAL, true) exactly when one of the three buy rules
fires (strong bullish crossover + oversold zone + MACD filter; bullish
crossover + extremely oversold + filter; strong bullish trend + oversold zone
+ filter), otherwise (SELL_SIGNAL, true) exactly on the mirrored bearish
rules, and (HOLD, false) when neither fires. -/
theorem new_position_entry_spec (dt : String) (price rsi macd signal_line : ℚ)
    (thresholds : Thresholds) (historical_data : List Candle) :
    check_new_position_signals ⟨dt, price, some rsi, some macd, some signal_line⟩
        thresholds historical_data =
      if ((check_macd_crossover historical_data (some macd) (some signal_line)).1 = true ∧
          (check_macd_crossover historical_data (some macd) (some signal_line)).2.2 =
            some "strong" ∧
          (analyze_rsi_condition (some rsi) thresholds.rsi_buy_threshold
              thresholds.rsi_sell_threshold = "oversold" ∨
           analyze_rsi_condition (some rsi) thresholds.rsi_buy_threshold
              thresholds.rsi_sell_threshold = "extremely_oversold") ∧
          macd > thresholds.macd_buy_threshold) ∨
         ((check_macd_crossover historical_data (some macd) (some signal_line)).1 = true ∧
          analyze_rsi_condition (some rsi) thresholds.rsi_buy_threshold
            thresholds.rsi_sell_threshold = "extremely_oversold" ∧
          macd > thresholds.macd_buy_threshold) ∨
         (get_macd_trend_strength (some macd) (some signal_line) = "strong_bullish" ∧
          (analyze_rsi_condition (some rsi) thresholds.rsi_buy_threshold
              thresholds.rsi_sell_threshold = "oversold" ∨
           analyze_rsi_condition (some rsi) thresholds.rsi_buy_threshold
              thresholds.rsi_sell_threshold = "extremely_oversold") ∧
          macd > thresholds.macd_buy_threshold)
      then ("BUY_SIGNAL", true)
      else if
         ((check_macd_crossover historical_data (some macd) (some signal_line)).2.1 = true ∧
          (check_macd_crossover historical_data (some macd) (some signal_line)).2.2 =
            some "strong" ∧
          (analyze_rsi_condition (some rsi) thresholds.rsi_buy_threshold
              thresholds.rsi_sell_threshold = "overbought" ∨
           analyze_rsi_condition (some rsi) thresholds.rsi_buy_threshold
              thresholds.rsi_sell_threshold = "extremely_overbought") ∧
          macd < thresholds.macd_sell_threshold) ∨
         ((check_macd_crossover historical_data (some macd) (some signal_line)).2.1 = true ∧
          analyze_rsi_condition (some rsi) thresholds.rsi_buy_threshold
            thresholds.rsi_sell_threshold = "extremely_overbought" ∧
          macd < thresholds.macd_sell_threshold) ∨
         (get_macd_trend_strength (some macd) (some signal_line) = "strong_bearish" ∧
          (analyze_rsi_condition (some rsi) thresholds.rsi_buy_threshold
              thresholds.rsi_sell_threshold = "overbought" ∨
           analyze_rsi_condition (some rsi) thresholds.rsi_buy_threshold
              thresholds.rsi_sell_threshold = "extremely_overbought") ∧
          macd < thresholds.macd_sell_threshold)
      then ("SELL_SIGNAL", true)
      else ("HOLD", false) := by
  have hbuy := check_buy_conditions_iff rsi macd signal_line
    (check_macd_crossover historical_data (some macd) (some signal_line)).1
    (check_macd_crossover historical_data (some macd) (some signal_line)).2.2
    (get_macd_trend_strength (some macd) (some signal_line))
    (analyze_rsi_condition (some rsi) thresholds.rsi_buy_threshold
      thresholds.rsi_sell_threshold) thresholds
  have hsell := check_sell_conditions_iff rsi macd signal_line
    (check_macd_crossover historical_data (some macd) (some signal_line)).2.1
    (check_macd_crossover historical_data (some macd) (some signal_line)).2.2
    (get_macd_trend_strength (some macd) (some signal_line))
    (analyze_rsi_condition (some rsi) thresholds.rsi_buy_threshold
      thresholds.rsi_sell_threshold) thresholds
  simp only [check_new_position_signals]
  by_cases hb : check_buy_conditions rsi macd signal_line
      (check_macd_crossover historical_data (some macd) (some signal_line)).1
      (check_macd_crossover historical_data (some macd) (some signal_line)).2.2
      (get_macd_trend_strength (some macd) (some signal_line))
      (analyze_rsi_condition (some rsi) thresholds.rsi_buy_threshold
        thresholds.rsi_sell_threshold) thresholds = true
  · rw [if_pos hb, if_pos (hbuy.mp hb)]
  · by_cases hs : check_sell_conditions rsi macd signal_line
        (check_macd_crossover historical_data (some macd) (some signal_line)).2.1
        (check_macd_crossover historical_data (some macd) (some signal_line)).2.2
        (get_macd_trend_strength (some macd) (some signal_line))
        (analyze_rsi_condition (some rsi) thresholds.rsi_buy_threshold
          thresholds.rsi_sell_threshold) thresholds = true
    · rw [if_neg hb, if_pos hs, if_neg (fun hp => hb (hbuy.mpr hp)),
        if_pos (hsell.mp hs)]
    · rw [if_neg hb, if_neg hs, if_neg (fun hp => hb (hbuy.mpr hp)),
        if_neg (fun hp => hs (hsell.mpr hp))]

/-- C9 (amended): execute_trade on a label ending in _SIGNAL, _LOSS or
_PROFIT appends exactly one ledger entry — side BUY exactly when the label
starts with "BUY", quantity equal to thresholds.tradeSize (independent of
positionSizeUsdt), at the snapshot's price and time — leaving all prior
entries unchanged; on a label with none of these suffixes (e.g. HOLD) the
ledger is unchanged.  NO_SIGNAL is not such a label: it ends in _SIGNAL, so
the suffix gate treats it as actionable (see the counterexample below). -/
theorem execute_trade_spec (signal : String) (market_data : MarketData)
    (thresholds : Thresholds) (orders : List OrderData) :
    ((str_ends_with signal "_SIGNAL" = true ∨ str_ends_with signal "_LOSS" = true ∨
      str_ends_with signal "_PROFIT" = true) →
      ∃ entry : OrderData,
        execute_trade signal market_data thresholds orders = orders ++ [entry] ∧
        (entry.side = "BUY" ↔ str_starts_with signal "BUY" = true) ∧
        entry.quantity = thresholds.trade_size ∧
        entry.trade_size = thresholds.trade_size ∧
        entry.price = market_data.price ∧
        entry.datetime = market_data.datetime) ∧
    ((str_ends_with signal "_SIGNAL" = false ∧ str_ends_with signal "_LOSS" = false ∧
      str_ends_with signal "_PROFIT" = false) →
      execute_trade signal market_data thresholds orders = orders) ∧
    (∀ thresholds2 : Thresholds,
      thresholds2.trade_size = thresholds.trade_size →
      execute_trade signal market_data thresholds2 orders =
        execute_trade signal market_data thresholds orders) := by
  refine ⟨?_, ?_, ?_⟩
  · intro h
    have hb : (str_ends_with signal "_SIGNAL" || str_ends_with signal "_LOSS" ||
        str_ends_with signal "_PROFIT") = true := by
      rcases h with h | h | h <;> simp [h]
    refine ⟨⟨market_data.datetime,
      if str_starts_with signal "BUY" then "BUY" else "SELL",
      market_data.price, thresholds.trade_size, thresholds.trade_size⟩,
      ?_, ?_, rfl, rfl, rfl, rfl⟩
    · simp [execute_trade, hb]
    · by_cases hs : str_starts_with signal "BUY" = true <;> simp [hs]
  · intro h
    simp [execute_trade, h.1, h.2.1, h.2.2]
  · intro thresholds2 h
    unfold execute_trade
    rw [h]

/-- Witness for C9: executing "BUY_SIGNAL" on an empty ledger appends exactly
one BUY entry sized by the default tradeSize. -/
theorem execute_trade_spec_witness :
    ∃ entry : OrderData,
      execute_trade "BUY_SIGNAL" ⟨"t", 100, none, none, none⟩
          DEFAULT_THRESHOLDS [] = [] ++ [entry] ∧
      (entry.side = "BUY" ↔ str_starts_with "BUY_SIGNAL" "BUY" = true) ∧
      entry.quantity = DEFAULT_THRESHOLDS.trade_size ∧
      entry.trade_size = DEFAULT_THRESHOLDS.trade_size ∧
      entry.price = (100 : ℚ) ∧
      entry.datetime = "t" :=
  (execute_trade_spec "BUY_SIGNAL" ⟨"t", 100, none, none, none⟩
    DEFAULT_THRESHOLDS []).1 (Or.inl (by decide))

/-- The derived fast period never exceeds the derived RSI period, so the
code's `max(rsi_window, macd_slow, signal_window)` equals the max of all four
derived periods. -/
lemma macd_fast_le_rsi_window (indicator_window : ℕ) :
    (get_indicator_periods indicator_window).macd_fast ≤
      (get_indicator_periods indicator_window).rsi_window := by
  unfold get_indicator_periods
  simp only
  exact max_le (le_max_of_le_left (by norm_num))
    (le_max_of_le_right (Nat.div_le_div_right
      (Nat.mul_le_mul_left indicator_window (by norm_num))))

/-- Nat floor of `0.54 * n` over ℚ is the natural division `n * 54 / 100`. -/
lemma nat_floor_54 (n : ℕ) : Nat.floor ((54 / 100 : ℚ) * n) = n * 54 / 100 := by
  have h : ((54 : ℚ) / 100) * n = ((n * 54 : ℕ) : ℚ) / ((100 : ℕ) : ℚ) := by
    push_cast
    ring
  rw [h, Nat.floor_div_nat, Nat.floor_natCast]

/-- Nat floor of `0.46 * n` over ℚ is the natural division `n * 46 / 100`. -/
lemma nat_floor_46 (n : ℕ) : Nat.floor ((46 / 100 : ℚ) * n) = n * 46 / 100 := by
  have h : ((46 : ℚ) / 100) * n = ((n * 46 : ℕ) : ℚ) / ((100 : ℕ) : ℚ) := by
    push_cast
    ring
  rw [h, Nat.floor_div_nat, Nat.floor_natCast]

/-- Nat floor of `0.35 * n` over ℚ is the natural division `n * 35 / 100`. -/
lemma nat_floor_35 (n : ℕ) : Nat.floor ((35 / 100 : ℚ) * n) = n * 35 / 100 := by
  have h : ((35 : ℚ) / 100) * n = ((n * 35 : ℕ) : ℚ) / ((100 : ℕ) : ℚ) := by
    push_cast
    ring
  rw [h, Nat.floor_div_nat, Nat.floor_natCast]

/-- C8: for positive indicatorWindow the derived periods are
rsiWindow = max(10, ⌊0.54·w⌋), macdFast = max(8, ⌊0.46·w⌋), macdSlow = w,
signalWindow = max(6, ⌊0.35·w⌋); and the indicator computation returns all
three indicators absent whenever the history is shorter than the maximum of
the four derived periods. -/
theorem indicator_periods_spec (indicator_window : ℕ)
    (hw : 0 < indicator_window) :
    ((get_indicator_periods indicator_window).rsi_window =
        max 10 (Nat.floor ((54 / 100 : ℚ) * indicator_window)) ∧
     (get_indicator_periods indicator_window).macd_fast =
        max 8 (Nat.floor ((46 / 100 : ℚ) * indicator_window)) ∧
     (get_indicator_periods indicator_window).macd_slow = indicator_window ∧
     (get_indicator_periods indicator_window).signal_window =
        max 6 (Nat.floor ((35 / 100 : ℚ) * indicator_window))) ∧
    (∀ (ta_rsi : List ℚ → ℕ → Option ℚ)
       (ta_macd : List ℚ → ℕ → ℕ → ℕ → Option ℚ × Option ℚ)
       (historical_data : List Candle),
      historical_data.length <
          max (max (get_indicator_periods indicator_window).rsi_window
                   (get_indicator_periods indicator_window).macd_fast)
              (max (get_indicator_periods indicator_window).macd_slow
                   (get_indicator_periods indicator_window).signal_window) →
      calculate_technical_indicators ta_rsi ta_macd historical_data
        indicator_window = (none, none, none)) := by
  constructor
  · refine ⟨?_, ?_, rfl, ?_⟩ <;>
      simp [get_indicator_periods, nat_floor_54, nat_floor_46, nat_floor_35]
  · intro ta_rsi ta_macd historical_data hlen
    have hmax : max (max (get_indicator_periods indicator_window).rsi_window
            (get_indicator_periods indicator_window).macd_fast)
          (max (get_indicator_periods indicator_window).macd_slow
            (get_indicator_periods indicator_window).signal_window) =
        max (get_indicator_periods indicator_window).rsi_window
          (max (get_indicator_periods indicator_window).macd_slow
            (get_indicator_periods indicator_window).signal_window) := by
      rw [max_eq_left (macd_fast_le_rsi_window indicator_window)]
    rw [hmax] at hlen
    simp [calculate_technical_indicators, hlen]

/-- Witness for C8: at the default window 26 the RSI period formula holds and
an empty history yields all-absent indicators. -/
theorem indicator_periods_spec_witness :
    (get_indicator_periods 26).rsi_window =
      max 10 (Nat.floor ((54 / 100 : ℚ) * (26 : ℕ))) ∧
    calculate_technical_indicators (fun _ _ => none)
      (fun _ _ _ _ => (none, none)) [] 26 = (none, none, none) :=
  ⟨(indicator_periods_spec 26 (by norm_num)).1.1,
   (indicator_periods_spec 26 (by norm_num)).2 _ _ [] (by decide)⟩

/-- Entry evaluation aborts with (NO_SIGNAL, false) when any of the three
indicators is absent from the snapshot. -/
lemma check_new_position_signals_absent (market_data : MarketData)
    (thresholds : Thresholds) (historical_data : List Candle)
    (habs : market_data.rsi = none ∨ market_data.macd = none ∨
      market_data.signal_line = none) :
    check_new_position_signals market_data thresholds historical_data =
      ("NO_SIGNAL", false) := by
  obtain ⟨dt, price, orsi, omacd, osig⟩ := market_data
  rcases orsi with _ | r <;> rcases omacd with _ | m <;> rcases osig with _ | s <;>
    simp_all [check_new_position_signals]

/-- C7: the evaluator returns (NO_SIGNAL, false) whenever the snapshot is
absent or the active flag is false; and with a NONE derived position it
returns (NO_SIGNAL, false) whenever RSI, MACD, or the MACD signal line is
absent from the snapshot. -/
theorem no_signal_guards_spec (market_data : MarketData)
    (thresholds : Thresholds) (orders : List OrderData)
    (historical_data : List Candle) :
    check_trading_signals_with_thresholds none thresholds orders
        historical_data = ("NO_SIGNAL", false) ∧
    (thresholds.active = false →
      check_trading_signals_with_thresholds (some market_data) thresholds
        orders historical_data = ("NO_SIGNAL", false)) ∧
    ((get_current_position_from_orders orders).1 = none →
      (market_data.rsi = none ∨ market_data.macd = none ∨
        market_data.signal_line = none) →
      check_trading_signals_with_thresholds (some market_data) thresholds
        orders historical_data = ("NO_SIGNAL", false)) := by
  refine ⟨rfl, ?_, ?_⟩
  · intro h
    simp [check_trading_signals_with_thresholds, h]
  · intro hpos habs
    cases hact : thresholds.active with
    | false => simp [check_trading_signals_with_thresholds, hact]
    | true =>
      rcases hgp : get_current_position_from_orders orders with ⟨p1, p2⟩
      rw [hgp] at hpos
      simp only at hpos
      subst hpos
      simp [check_trading_signals_with_thresholds, hact, hgp,
        check_new_position_signals_absent market_data thresholds
          historical_data habs]

/-- Witness for C7: a deactivated config and a missing-MACD snapshot on an
empty ledger both yield (NO_SIGNAL, false). -/
theorem no_signal_guards_spec_witness :
    check_trading_signals_with_thresholds (some ⟨"t", 100, some 50, some 1, some 1⟩)
        { DEFAULT_THRESHOLDS with active := false } [] [] = ("NO_SIGNAL", false) ∧
    check_trading_signals_with_thresholds (some ⟨"t", 100, some 50, none, some 1⟩)
        DEFAULT_THRESHOLDS [] [] = ("NO_SIGNAL", false) := by
  constructor
  · exact (no_signal_guards_spec ⟨"t", 100, some 50, some 1, some 1⟩
      { DEFAULT_THRESHOLDS with active := false } [] []).2.1 rfl
  · exact (no_signal_guards_spec ⟨"t", 100, some 50, none, some 1⟩
      DEFAULT_THRESHOLDS [] []).2.2 rfl (Or.inr (Or.inl rfl))

/-- The exit check only ever returns one of the four exit labels with
execute = true, or (HOLD, false). -/
lemma check_stop_loss_take_profit_mem (current_position : String)
    (current_price last_trade_price : ℚ) (thresholds : Thresholds) :
    check_stop_loss_take_profit current_position current_price last_trade_price
        thresholds = ("SELL_STOP_LOSS", true) ∨
    check_stop_loss_take_profit current_position current_price last_trade_price
        thresholds = ("SELL_TAKE_PROFIT", true) ∨
    check_stop_loss_take_profit current_position current_price last_trade_price
        thresholds = ("BUY_STOP_LOSS", true) ∨
    check_stop_loss_take_profit current_position current_price last_trade_price
        thresholds = ("BUY_TAKE_PROFIT", true) ∨
    check_stop_loss_take_profit current_position current_price last_trade_price
        thresholds = ("HOLD", false) := by
  unfold check_stop_loss_take_profit
  split_ifs <;> simp

/-- C1: with trading active and a derived position (LONG or SHORT) with a
reference price, the evaluator's result is one of the four exit labels with
execute = true or (HOLD, false) — never BUY_SIGNAL or SELL_SIGNAL — and it is
unchanged when the snapshot's indicator fields and the rolling history are
blanked, i.e. the entry-rule classifiers play no part in that call. -/
theorem exit_priority_spec (market_data : MarketData) (thresholds : Thresholds)
    (orders : List OrderData) (historical_data : List Candle)
    (position : String) (reference_price : ℚ)
    (hact : thresholds.active = true)
    (hpos : get_current_position_from_orders orders =
      (some position, some reference_price)) :
    (check_trading_signals_with_thresholds (some market_data) thresholds orders
        historical_data = ("SELL_STOP_LOSS", true) ∨
     check_trading_signals_with_thresholds (some market_data) thresholds orders
        historical_data = ("SELL_TAKE_PROFIT", true) ∨
     check_trading_signals_with_thresholds (some market_data) thresholds orders
        historical_data = ("BUY_STOP_LOSS", true) ∨
     check_trading_signals_with_thresholds (some market_data) thresholds orders
        historical_data = ("BUY_TAKE_PROFIT", true) ∨
     check_trading_signals_with_thresholds (some market_data) thresholds orders
        historical_data = ("HOLD", false)) ∧
    ((check_trading_signals_with_thresholds (some market_data) thresholds orders
        historical_data).1 ≠ "BUY_SIGNAL" ∧
     (check_trading_signals_with_thresholds (some market_data) thresholds orders
        historical_data).1 ≠ "SELL_SIGNAL") ∧
    check_trading_signals_with_thresholds (some market_data) thresholds orders
        historical_data =
      check_trading_signals_with_thresholds
        (some { market_data with rsi := none, macd := none, signal_line := none })
        thresholds orders [] := by
  have hred : ∀ (md : MarketData) (hist : List Candle),
      check_trading_signals_with_thresholds (some md) thresholds orders hist =
        if reference_price ≠ 0 then
          if (check_stop_loss_take_profit position md.price reference_price
                thresholds).2 then
            check_stop_loss_take_profit position md.price reference_price
              thresholds
          else ("HOLD", false)
        else ("HOLD", false) := by
    intro md hist
    simp [check_trading_signals_with_thresholds, hact, hpos]
  have hmem : check_trading_signals_with_thresholds (some market_data)
      thresholds orders historical_data = ("SELL_STOP_LOSS", true) ∨
      check_trading_signals_with_thresholds (some market_data) thresholds orders
        historical_data = ("SELL_TAKE_PROFIT", true) ∨
      check_trading_signals_with_thresholds (some market_data) thresholds orders
        historical_data = ("BUY_STOP_LOSS", true) ∨
      check_trading_signals_with_thresholds (some market_data) thresholds orders
        historical_data = ("BUY_TAKE_PROFIT", true) ∨
      check_trading_signals_with_thresholds (some market_data) thresholds orders
        historical_data = ("HOLD", false) := by
    rw [hred market_data historical_data]
    by_cases hr : reference_price ≠ 0
    · rw [if_pos hr]
      by_cases hx : (check_stop_loss_take_profit position market_data.price
          reference_price thresholds).2 = true
      · rw [if_pos hx]
        exact check_stop_loss_take_profit_mem position market_data.price
          reference_price thresholds
      · rw [if_neg hx]
        exact Or.inr (Or.inr (Or.inr (Or.inr rfl)))
    · rw [if_neg hr]
      exact Or.inr (Or.inr (Or.inr (Or.inr rfl)))
  refine ⟨hmem, ?_, ?_⟩
  · rcases hmem with h | h | h | h | h <;> rw [h] <;>
      exact ⟨by simp, by simp⟩
  · rw [hred market_data historical_data,
      hred { market_data with rsi := none, macd := none, signal_line := none } []]

/-- Witness for C1: a one-BUY ledger (LONG at 100) with the default 2%
stop-loss and price 97 yields an exit or HOLD outcome. -/
theorem exit_priority_spec_witness :
    check_trading_signals_with_thresholds (some ⟨"t", 97, none, none, none⟩)
        DEFAULT_THRESHOLDS [⟨"t0", "BUY", 100, 1, 1⟩] [] =
      ("SELL_STOP_LOSS", true) ∨
    check_trading_signals_with_thresholds (some ⟨"t", 97, none, none, none⟩)
        DEFAULT_THRESHOLDS [⟨"t0", "BUY", 100, 1, 1⟩] [] =
      ("SELL_TAKE_PROFIT", true) ∨
    check_trading_signals_with_thresholds (some ⟨"t", 97, none, none, none⟩)
        DEFAULT_THRESHOLDS [⟨"t0", "BUY", 100, 1, 1⟩] [] =
      ("BUY_STOP_LOSS", true) ∨
    check_trading_signals_with_thresholds (some ⟨"t", 97, none, none, none⟩)
        DEFAULT_THRESHOLDS [⟨"t0", "BUY", 100, 1, 1⟩] [] =
      ("BUY_TAKE_PROFIT", true) ∨
    check_trading_signals_with_thresholds (some ⟨"t", 97, none, none, none⟩)
        DEFAULT_THRESHOLDS [⟨"t0", "BUY", 100, 1, 1⟩] [] = ("HOLD", false) :=
  (exit_priority_spec ⟨"t", 97, none, none, none⟩ DEFAULT_THRESHOLDS
    [⟨"t0", "BUY", 100, 1, 1⟩] [] "LONG" 100 rfl (by decide)).1

/-- Counterexample for C9 as frozen: the claim names NO_SIGNAL as a
non-actionable label that leaves the ledger unchanged, but "NO_SIGNAL" ends
in "_SIGNAL", so execute_trade passes the suffix gate and appends one SELL
entry to the empty ledger. -/
theorem execute_trade_no_signal_counterexample :
    execute_trade "NO_SIGNAL" ⟨"t", 100, none, none, none⟩ DEFAULT_THRESHOLDS [] =
      [⟨"t", "SELL", 100, 1 / 100, 1 / 100⟩] ∧
    execute_trade "NO_SIGNAL" ⟨"t", 100, none, none, none⟩ DEFAULT_THRESHOLDS [] ≠
      ([] : List OrderData) := by
  have he : str_ends_with "NO_SIGNAL" "_SIGNAL" = true := by decide
  have hst : str_starts_with "NO_SIGNAL" "BUY" = false := by decide
  constructor
  · simp [execute_trade, he, hst, DEFAULT_THRESHOLDS]
  · simp [execute_trade, he, hst]
